import Mathlib

set_option maxHeartbeats 1000000

/-!
A shallow embedding of `aries_cloudagent/protocols/out_of_band/v1_0/manager.py`
(class `OutOfBandManager`).  Each Python coroutine is embedded as a pure Lean
function over explicit state.  External collaborators (record storage, the
event bus, the responder, the wallet, concurrently running handlers) are
modelled as explicit environment values supplied to the function, and the
externally visible effects (record saves, emitted webhook notifications,
subscription / read / await steps) are returned as explicit values or traces,
in the order the source performs them.
-/

/-- Role of an `OobRecord` (`OobRecord.ROLE_SENDER` / `ROLE_RECEIVER`). -/
inductive OobRole
  | sender
  | receiver
  deriving DecidableEq, Repr, Inhabited

/-- States of an `OobRecord`: `initial`, `await_response`, `reuse_accepted`
(`STATE_ACCEPTED`), `reuse_not_accepted` (`STATE_NOT_ACCEPTED`), `done`. -/
inductive OobState
  | initial
  | awaitResponse
  | accepted
  | notAccepted
  | done
  deriving DecidableEq, Repr, Inhabited

/-- The fields of `OobRecord` used by `manager.py`.  Identifiers are modelled
as naturals.  `inviMsgId` is `invi_msg_id`; on records built by
`receive_invitation` it equals the invitation message id `invitation._id`. -/
structure OobRecord where
  oobId : Nat
  role : OobRole
  state : OobState
  inviMsgId : Nat
  reuseMsgId : Option Nat
  connectionId : Option Nat
  ourRecipientKey : Option Nat
  deriving DecidableEq, Repr, Inhabited

/-- The fields of `ConnRecord` this manager reads: its id and the
`ConnRecord.is_ready` predicate used by `_wait_for_conn_rec_active`. -/
structure ConnRecord where
  connectionId : Nat
  ready : Bool
  deriving DecidableEq, Repr, Inhabited

/-- The value placed under the `"comment"` key of a webhook payload.  In
`_handle_hanshake_reuse` the source writes a parenthesized sequence of string
literals with embedded commas, which in Python is a 2-tuple of strings, not a
string; everywhere else the comment is a plain string.  Both shapes are
representable so the embedding can reproduce the source exactly. -/
inductive CommentVal
  | str (s : String)
  | pair (a b : String)
  deriving DecidableEq, Repr, Inhabited

/-- Whether the comment value is a plain string. -/
def CommentVal.isString : CommentVal → Bool
  | CommentVal.str _ => true
  | CommentVal.pair _ _ => false

/-- A `profile.notify` webhook event: topic and the payload keys used by
`manager.py` (`thread_id`, `connection_id`, `state`, `comment`). -/
structure Notification where
  topic : String
  threadId : Option Nat
  connectionId : Option Nat
  stateTag : Option String
  comment : CommentVal
  deriving DecidableEq, Repr, Inhabited

def dummyNotification : Notification :=
  { topic := "", threadId := none, connectionId := none,
    stateTag := none, comment := CommentVal.str "" }

def REUSE_WEBHOOK_TOPIC : String := "acapy::webhook::connection_reuse"

def REUSE_ACCEPTED_WEBHOOK_TOPIC : String :=
  "acapy::webhook::connection_reuse_accepted"

/-- The primitive steps of the two event-waiter helpers, in execution order:
open the scoped `wait_for_event` subscription, read the record from storage,
await the next matching bus event bounded by the timeout, and re-read the
record after a timeout. -/
inductive WaitOp
  | subscribe
  | readRecord
  | awaitEvent (timeout : Nat)
  | rereadRecord
  deriving DecidableEq, Repr

/-- Environment of one `_wait_for_reuse_response` run.  `checkState` is the
state the stored record has when it is read just after the subscription is
opened (concurrent handlers `receive_reuse_accepted_message` /
`receive_problem_report` mutate only the state field).  `eventAccepted` is
`some b` when a bus event on topic `acapy::record::out_of_band::reuse_accepted`
(`b = true`) or `...::reuse_not_accepted` (`b = false`) for this `oob_id`
arrives before the timeout, `none` on timeout.  `timeoutState` is the state
the stored record has at the re-read performed after a timeout. -/
structure ReuseWaitEnv where
  checkState : OobState
  eventAccepted : Option Bool
  timeoutState : OobState
  deriving DecidableEq, Repr, Inhabited

/-- Default of the `timeout` parameter of `_wait_for_reuse_response`. -/
def reuseResponseTimeoutDefault : Nat := 15

/-- Default of the `timeout` parameter of `_wait_for_conn_rec_active`. -/
def connRecActiveTimeoutDefault : Nat := 7

/-- Embeds `OutOfBandManager._wait_for_reuse_response`: open the event
subscription, then read the record; if it is already in `reuse_accepted` or
`reuse_not_accepted` return it at once; otherwise await the next matching
event (whose payload deserializes to the record with the new state); on
timeout re-read the record from storage and return it as-is. -/
def _wait_for_reuse_response (timeout : Nat) (stored : OobRecord)
    (env : ReuseWaitEnv) : OobRecord × List WaitOp :=
  let atCheck : OobRecord := { stored with state := env.checkState }
  if env.checkState = OobState.accepted ∨ env.checkState = OobState.notAccepted then
    (atCheck, [WaitOp.subscribe, WaitOp.readRecord])
  else
    match env.eventAccepted with
    | some b =>
        let st := if b then OobState.accepted else OobState.notAccepted
        ({ stored with state := st },
         [WaitOp.subscribe, WaitOp.readRecord, WaitOp.awaitEvent timeout])
    | none =>
        ({ stored with state := env.timeoutState },
         [WaitOp.subscribe, WaitOp.readRecord, WaitOp.awaitEvent timeout,
          WaitOp.rereadRecord])

/-- Environment of one `_wait_for_conn_rec_active` run: the stored connection
record at the post-subscription read, and the record delivered by a
`acapy::record::connections::(active|completed|response)` event if one
arrives before the timeout. -/
structure ConnWaitEnv where
  storedConn : ConnRecord
  eventConn : Option ConnRecord
  deriving DecidableEq, Repr, Inhabited

/-- Embeds `OutOfBandManager._wait_for_conn_rec_active`: open the event
subscription, then read the connection record; if it is already ready return
it at once; otherwise await the next matching event; on timeout return
`none` (logged, not an error). -/
def _wait_for_conn_rec_active (timeout : Nat) (env : ConnWaitEnv) :
    Option ConnRecord × List WaitOp :=
  if env.storedConn.ready then
    (some env.storedConn, [WaitOp.subscribe, WaitOp.readRecord])
  else
    match env.eventConn with
    | some c =>
        (some c, [WaitOp.subscribe, WaitOp.readRecord, WaitOp.awaitEvent timeout])
    | none =>
        (none, [WaitOp.subscribe, WaitOp.readRecord, WaitOp.awaitEvent timeout])

/-- Embeds `OutOfBandManager._create_handshake_reuse_message` (its effect on
the record): build the reuse message with `thid` fresh, `pthid` the
invitation id, send it, then set `reuse_msg_id`, set state to
`await_response`, and save. -/
def _create_handshake_reuse_message (rec : OobRecord) (reuseMsgId : Nat) :
    OobRecord :=
  { rec with reuseMsgId := some reuseMsgId, state := OobState.awaitResponse }

/-- The rejection webhook payload emitted by `_handle_hanshake_reuse` when
reuse was not accepted.  The `comment` is the source's parenthesized
literals-with-commas, i.e. a 2-tuple of strings (first component the
concatenation of the two adjacent literals), reproduced here verbatim. -/
def rejectionNotification (rec : OobRecord) (conn : ConnRecord) : Notification :=
  { topic := REUSE_ACCEPTED_WEBHOOK_TOPIC,
    threadId := rec.reuseMsgId,
    connectionId := some conn.connectionId,
    stateTag := some "rejected",
    comment := CommentVal.pair
      ("No HandshakeReuseAccept message received, connection " ++
        Nat.repr conn.connectionId ++ " ")
      ("and invitation " ++ Nat.repr rec.inviMsgId) }

/-- Result of one `_handle_hanshake_reuse` run: the in-memory record it
returns, the last record it persisted, the webhook notifications it emitted,
and the waiter steps performed. -/
structure ReuseInitResult where
  record : OobRecord
  stored : OobRecord
  notifications : List Notification
  ops : List WaitOp
  deriving DecidableEq, Repr, Inhabited

/-- Embeds `OutOfBandManager._handle_hanshake_reuse`: send the reuse message
(persisting `await_response` and the reuse message id), wait (default
timeout) for the reuse response; if the resulting state is not
`reuse_accepted`, clear `connection_id`, emit the rejection webhook, and
save the record. -/
def _handle_hanshake_reuse (rec : OobRecord) (conn : ConnRecord)
    (reuseMsgId : Nat) (env : ReuseWaitEnv) : ReuseInitResult :=
  let rec1 := _create_handshake_reuse_message rec reuseMsgId
  let w := _wait_for_reuse_response reuseResponseTimeoutDefault rec1 env
  let rec2 := w.1
  if rec2.state = OobState.accepted then
    { record := rec2, stored := rec1, notifications := [], ops := w.2 }
  else
    let rec3 := { rec2 with connectionId := none }
    { record := rec3, stored := rec3,
      notifications := [rejectionNotification rec3 conn], ops := w.2 }

/-- The two handshake protocols the negotiator loop in `_perform_handshake`
supports: RFC 23 DID-exchange and RFC 160 connections. -/
inductive HSProto
  | rfc160
  | rfc23
  deriving DecidableEq, Repr, Inhabited

/-- Modelled from the spec: `DIDCommPrefix` (not under src/) qualifies and
unqualifies protocol identifiers with the DIDComm message-type URI base;
`unqualify` strips a known base from the identifier if present. -/
def didcommBases : List String :=
  ["https://didcomm.org/", "did:sov:BzCbsNYhMrjHiqZDTUASHg;spec/"]

def unqualify (s : String) : String :=
  match didcommBases.find? (fun p => p.data.isPrefixOf s.data) with
  | some p => String.mk (s.data.drop p.data.length)
  | none => s

/-- Modelled from the spec: `HSProto.get` (not under src/) maps a protocol
identifier to the supported handshake-protocol value, `none` when the
identifier names no supported protocol.  The spec names the supported
identifiers RFC23 (`didexchange/1.0`) and RFC160 (`connections/1.0`). -/
def hsProtoGet (s : String) : Option HSProto :=
  if s = "didexchange/1.0" ∨ s = "RFC23" then some HSProto.rfc23
  else if s = "connections/1.0" ∨ s = "RFC160" then some HSProto.rfc160
  else none

/-- `dict.fromkeys` applied to a list of identifiers: deduplicate keeping the
first occurrence of each element, in order. -/
def dedupFirst : List String → List String
  | [] => []
  | x :: xs => x :: (dedupFirst xs).filter (fun y => y ≠ x)

/-- The `supported_handshake_protocols` list that `_perform_handshake` builds
from `invitation.handshake_protocols`: unqualify each entry, deduplicate
keeping invitation order, and look each identifier up with `HSProto.get`. -/
def parsedProtos (protos : List String) : List (Option HSProto) :=
  (dedupFirst (protos.map unqualify)).map hsProtoGet

/-- The `for protocol in supported_handshake_protocols` loop: the first entry
that is RFC23 or RFC160 is selected (each branch ends in `break`); entries
that resolved to no supported protocol are skipped. -/
def firstSome : List (Option HSProto) → Option HSProto
  | [] => none
  | some p :: _ => some p
  | none :: rest => firstSome rest

def selectHandshakeProtocol (protos : List String) : Option HSProto :=
  firstSome (parsedProtos protos)

/-- Errors surfaced by `receive_invitation` and its helpers, all raised as
`OutOfBandManagerError` in the source; `handshakeFailed` carries the
`supported_handshake_protocols` value interpolated into its message. -/
inductive ReceiveErr
  | serviceCount
  | invalidInvitation
  | handshakeFailed (attempted : List (Option HSProto))
  | malformedAttachment
  deriving DecidableEq, Repr

/-- Embeds `OutOfBandManager._perform_handshake`: parse the invitation's
handshake protocols, let the loop pick the first supported one and delegate
to the protocol's manager (external; it returns the new connection, modelled
by `delegatedConnId`); if no protocol matched, `conn_record` is still `None`
and an `OutOfBandManagerError` naming the attempted protocol set is raised;
on success `connection_id` is set on the record and the record is saved. -/
def _perform_handshake (rec : OobRecord) (protos : List String)
    (delegatedConnId : Nat) : Except ReceiveErr OobRecord :=
  match selectHandshakeProtocol protos with
  | none => Except.error (ReceiveErr.handshakeFailed (parsedProtos protos))
  | some _ => Except.ok { rec with connectionId := some delegatedConnId }

/-- A single entry of `invitation.services`: either a DID string or an
inline service block. -/
inductive ServiceEntry
  | did (d : String)
  | inlineSvc
  deriving DecidableEq, Repr, Inhabited

/-- An entry of `invitation.requests_attach`: either a proper
`AttachDecorator` (with opaque content) or something else (malformed). -/
inductive AttachItem
  | decorator (content : Nat)
  | malformed
  deriving DecidableEq, Repr, Inhabited

/-- The fields of `InvitationMessage` read by `receive_invitation`. -/
structure InvitationMessage where
  msgId : Nat
  handshakeProtocols : List String
  requestsAttach : List AttachItem
  services : List ServiceEntry
  deriving DecidableEq, Repr, Inhabited

/-- Split a character list on a separator character. -/
def splitCharsOn (c : Char) : List Char → List (List Char)
  | [] => [[]]
  | x :: xs =>
      let r := splitCharsOn c xs
      if x = c then [] :: r
      else
        match r with
        | [] => [[x]]
        | y :: ys => (x :: y) :: ys

/-- `service.split(":")[-1]`: the last `:`-separated segment of a DID. -/
def lastColonSegment (s : String) : String :=
  String.mk ((splitCharsOn ':' s.data).getLastD s.data)

/-- The externally visible coarse steps of a `receive_invitation` run. -/
inductive RcvOp
  | saveOob
  | sendReuse
  | awaitReuse (timeout : Nat)
  | performHs
  | awaitConnActive (timeout : Nat)
  | createKey
  | dispatchAttach
  deriving DecidableEq, Repr

/-- Environment of one `receive_invitation` run: the fresh `oob_id`, the
result of `ConnRecord.find_existing_connection`, the fresh reuse message id,
the reuse-wait environment, the connection the delegated handshake protocol
establishes, whether the re-fetched connection record is ready, the
connection-wait environment, and the fresh connectionless recipient key. -/
structure ReceiveEnv where
  oobId : Nat
  existingConn : Option ConnRecord
  reuseMsgId : Nat
  reuseWait : ReuseWaitEnv
  delegatedConnId : Nat
  refetchReady : Bool
  connWait : ConnWaitEnv
  freshKey : Nat
  deriving DecidableEq, Repr, Inhabited

/-- Result of a completing `receive_invitation` run: the in-memory record the
call returns, the record as last persisted to storage by this run, whether
the run returned through the early reuse-accepted return, the webhook
notifications emitted, and the coarse step trace. -/
structure ReceiveResult where
  record : OobRecord
  stored : OobRecord
  early : Bool
  notifications : List Notification
  trace : List RcvOp
  deriving DecidableEq, Repr, Inhabited

/-- The handshake step of `receive_invitation` (lines 487-501): when no
connection is bound and the invitation lists handshake protocols, run
`_perform_handshake` (which saves the record with the new `connection_id`)
and re-fetch the resulting connection record.  Returns the updated record,
the local `conn_rec` variable, the record as last saved, and the steps. -/
def handshakeStep (invitation : InvitationMessage) (env : ReceiveEnv)
    (rec : OobRecord) (connRec : Option ConnRecord) (stored : OobRecord) :
    Except ReceiveErr (OobRecord × Option ConnRecord × OobRecord × List RcvOp) :=
  if connRec.isNone ∧ invitation.handshakeProtocols.isEmpty = false then
    match _perform_handshake rec invitation.handshakeProtocols env.delegatedConnId with
    | Except.error e => Except.error e
    | Except.ok rec1 =>
        Except.ok (rec1,
          some { connectionId := env.delegatedConnId, ready := env.refetchReady },
          rec1, [RcvOp.performHs, RcvOp.saveOob])
  else Except.ok (rec, connRec, stored, [])

/-- The tail of `receive_invitation` after the reuse attempt (or when none was
made): the handshake step (lines 487-501), the attachment handling (lines
504-522) and the final in-memory `state = DONE` assignment (line 525), which
is not followed by a save.  `rec` is the current in-memory record, `connRec`
the current local `conn_rec` variable, `stored` the record as last saved. -/
def receiveAfterReuse (invitation : InvitationMessage) (env : ReceiveEnv)
    (rec : OobRecord) (connRec : Option ConnRecord) (stored : OobRecord)
    (notifs : List Notification) (trace : List RcvOp) :
    Except ReceiveErr ReceiveResult :=
  match handshakeStep invitation env rec connRec stored with
  | Except.error e => Except.error e
  | Except.ok (rec1, connRec1, stored1, t1) =>
      if invitation.requestsAttach.isEmpty then
        Except.ok { record := { rec1 with state := OobState.done },
                    stored := stored1, early := false,
                    notifications := notifs, trace := trace ++ t1 }
      else
        let t2 : List RcvOp :=
          if rec1.connectionId.isSome then
            [RcvOp.awaitConnActive connRecActiveTimeoutDefault]
          else []
        let ks : OobRecord × OobRecord × List RcvOp :=
          if connRec1.isNone then
            let r := { rec1 with ourRecipientKey := some env.freshKey }
            (r, r, [RcvOp.createKey, RcvOp.saveOob])
          else (rec1, stored1, [])
        match invitation.requestsAttach.headD AttachItem.malformed with
        | AttachItem.malformed => Except.error ReceiveErr.malformedAttachment
        | AttachItem.decorator _ =>
            Except.ok { record := { ks.1 with state := OobState.done },
                        stored := ks.2.1, early := false,
                        notifications := notifs,
                        trace := trace ++ t1 ++ t2 ++ ks.2.2 ++ [RcvOp.dispatchAttach] }

/-- The reuse branch of `receive_invitation` (lines 471-483): run
`_handle_hanshake_reuse` on the freshly saved record and the found
connection, set the local `conn_rec` to `None`, and return the record
immediately when the outcome is `reuse_accepted` (the only early return);
otherwise fall through to the rest of the flow. -/
def reuseStep (invitation : InvitationMessage) (env : ReceiveEnv)
    (rec0 : OobRecord) (conn : ConnRecord) : Except ReceiveErr ReceiveResult :=
  let ri := _handle_hanshake_reuse rec0 conn env.reuseMsgId env.reuseWait
  let trace1 := [RcvOp.saveOob, RcvOp.sendReuse,
                 RcvOp.awaitReuse reuseResponseTimeoutDefault]
  if ri.record.state = OobState.accepted then
    Except.ok { record := ri.record, stored := ri.stored, early := true,
                notifications := ri.notifications, trace := trace1 }
  else
    receiveAfterReuse invitation env ri.record none ri.stored
      ri.notifications trace1

/-- Embeds `OutOfBandManager.receive_invitation`: validate the single service
entry and the non-emptiness of protocols-or-attachments, look up an existing
connection when the service is a public DID and reuse is permitted, create
and save the RECEIVER-role record in state `initial`, attempt reuse when a
connection was found and no attachments are present (returning early exactly
when it ends accepted), then perform the handshake / attachment handling and
finally set `state = DONE` in memory only. -/
def receive_invitation (invitation : InvitationMessage)
    (useExistingConnection : Bool) (env : ReceiveEnv) :
    Except ReceiveErr ReceiveResult :=
  if invitation.services.length ≠ 1 then Except.error ReceiveErr.serviceCount
  else if invitation.requestsAttach.isEmpty ∧ invitation.handshakeProtocols.isEmpty then
    Except.error ReceiveErr.invalidInvitation
  else
    let publicDid : Option String :=
      match invitation.services.headD ServiceEntry.inlineSvc with
      | ServiceEntry.did d => some (lastColonSegment d)
      | ServiceEntry.inlineSvc => none
    let connRec0 : Option ConnRecord :=
      if publicDid.isSome ∧ useExistingConnection then env.existingConn else none
    let rec0 : OobRecord :=
      { oobId := env.oobId, role := OobRole.receiver, state := OobState.initial,
        inviMsgId := invitation.msgId, reuseMsgId := none,
        connectionId := connRec0.map (fun c => c.connectionId),
        ourRecipientKey := none }
    match connRec0 with
    | some conn =>
        if invitation.requestsAttach.isEmpty then
          reuseStep invitation env rec0 conn
        else
          receiveAfterReuse invitation env rec0 (some conn) rec0 [] [RcvOp.saveOob]
    | none =>
        receiveAfterReuse invitation env rec0 none rec0 [] [RcvOp.saveOob]

/-- Error outcomes of the inviter/invitee inbound handlers.
`storageNotFound` is a raw `StorageNotFoundError` escaping unchanged;
`outOfBand` is a raised `OutOfBandManagerError` with its message. -/
inductive ManagerErr
  | storageNotFound
  | outOfBand (msg : String)
  deriving DecidableEq, Repr

/-- Whether the error is a wrapped `OutOfBandManagerError` (as opposed to a
raw underlying exception escaping the handler). -/
def ManagerErr.isWrapped : ManagerErr → Bool
  | ManagerErr.outOfBand _ => true
  | ManagerErr.storageNotFound => false

/-- Environment of one `receive_reuse_message` run: the result of
`OobRecord.retrieve_by_tag_filter` on `{invi_msg_id}` with post filter
`{state: await_response}` (`none` means the lookup raised
`StorageNotFoundError`). -/
structure InviterStoreEnv where
  oobFound : Option OobRecord
  deriving DecidableEq, Repr, Inhabited

/-- The comment string of the acceptance webhooks (built with plain adjacent
f-string literals, no commas, hence a single string). -/
def reuseAcceptedComment (connId inviId : Nat) : String :=
  "Connection " ++ Nat.repr connId ++ " is being reused for invitation " ++
    Nat.repr inviId

/-- Embeds `OutOfBandManager.receive_reuse_message` (inviter side): locate the
inviter's record by invitation id and state `await_response`, set it to
`reuse_accepted` with the reuse message id and connection id, re-point the
connection's `invitation_msg_id`, delete stale single-use connections, emit
the `connection_reuse` webhook (no `state` key in its payload), and send the
reuse-accept message.  The body has no try/except: a failing step (here, the
record lookup) escapes as the raw underlying exception, unwrapped. -/
def receive_reuse_message (inviMsgId reuseMsgId : Nat) (conn : ConnRecord)
    (env : InviterStoreEnv) : Except ManagerErr OobRecord × List Notification :=
  match env.oobFound with
  | none => (Except.error ManagerErr.storageNotFound, [])
  | some rec =>
      let rec1 := { rec with
        state := OobState.accepted,
        reuseMsgId := some reuseMsgId,
        connectionId := some conn.connectionId }
      (Except.ok rec1,
       [{ topic := REUSE_WEBHOOK_TOPIC,
          threadId := some reuseMsgId,
          connectionId := some conn.connectionId,
          stateTag := none,
          comment := CommentVal.str
            (reuseAcceptedComment conn.connectionId inviMsgId) }])

/-- `OobRecord.retrieve_by_tag_filter` on the pair
`{invi_msg_id, reuse_msg_id}` (no state filter): first record of the store
matching both correlation ids. -/
def retrieveByCorrelation (store : List OobRecord) (i r : Nat) :
    Option OobRecord :=
  store.find? (fun rec => rec.inviMsgId == i && rec.reuseMsgId == some r)

/-- `record.save(session)`: replace the stored record(s) with this `oob_id`. -/
def saveRecord (store : List OobRecord) (rec : OobRecord) : List OobRecord :=
  store.map (fun q => if q.oobId == rec.oobId then rec else q)

/-- The success webhook payload of `receive_reuse_accepted_message`. -/
def acceptNotification (reuseMsgId connId inviId : Nat) : Notification :=
  { topic := REUSE_ACCEPTED_WEBHOOK_TOPIC,
    threadId := some reuseMsgId,
    connectionId := some connId,
    stateTag := some "accepted",
    comment := CommentVal.str (reuseAcceptedComment connId inviId) }

/-- The failure webhook payload of `receive_reuse_accepted_message`, emitted
in its `except` branch before the wrapped error is raised. -/
def failNotification (reuseMsgId connId inviId : Nat) : Notification :=
  { topic := REUSE_ACCEPTED_WEBHOOK_TOPIC,
    threadId := some reuseMsgId,
    connectionId := some connId,
    stateTag := some "rejected",
    comment := CommentVal.str
      ("Unable to process HandshakeReuseAccept message, connection " ++
        Nat.repr connId ++ " and invitation " ++ Nat.repr inviId) }

/-- Embeds `OutOfBandManager.receive_reuse_accepted_message` (invitee side):
locate the record by the `(invi_msg_id, reuse_msg_id)` correlation pair (no
state filter), set its state to `reuse_accepted` (its `connection_id` is not
touched), save it, and emit the acceptance webhook; on any failure in the
try block (here, the lookup failing), emit the rejection webhook and raise a
wrapped `OutOfBandManagerError` naming the invitation id. -/
def receive_reuse_accepted_message (store : List OobRecord)
    (inviMsgId reuseMsgId : Nat) (conn : ConnRecord) :
    Except ManagerErr Unit × List OobRecord × List Notification :=
  match retrieveByCorrelation store inviMsgId reuseMsgId with
  | none =>
      (Except.error (ManagerErr.outOfBand
         ("Error processing reuse accepted message for OOB invitation " ++
           Nat.repr inviMsgId)),
       store,
       [failNotification reuseMsgId conn.connectionId inviMsgId])
  | some rec =>
      let rec1 := { rec with state := OobState.accepted }
      (Except.ok (), saveRecord store rec1,
       [acceptNotification reuseMsgId conn.connectionId inviMsgId])

/-- An `attachments` list entry of `create_invitation`: `{"id": ..., "type": ...}`. -/
structure AttachmentRef where
  aType : String
  aId : Nat
  deriving DecidableEq, Repr, Inhabited

/-- The parameters of `create_invitation` that drive its control flow.
`publicInv` is the `public` flag; `mediationRecordFound` is whether
`mediation_record_if_id` returned an applicable mediation record;
`multitenant` is whether a multitenant manager and wallet id are configured;
`baseMediator` is whether the base wallet has a default mediator. -/
structure CreateParams where
  publicInv : Bool
  hsProtos : List HSProto
  multiUse : Bool
  attachments : List AttachmentRef
  metadata : List (String × String)
  mediationRecordFound : Bool
  multitenant : Bool
  baseMediator : Bool
  deriving DecidableEq, Repr, Inhabited

/-- Settings / wallet environment of a `create_invitation` run. -/
structure CreateEnv where
  publicInvitesEnabled : Bool
  publicDid : Option Nat
  deriving DecidableEq, Repr, Inhabited

/-- The external effects of a `create_invitation` run, in execution order.
Only `saveConnRecord` and `saveOobRecord` persist a record;
`lookupAttachment` is a storage read, `attachInvitation` and `metadataSet`
write to an already-saved connection record. -/
inductive CreateAct
  | lookupAttachment (a : Nat)
  | addMultitenantKey
  | createSigningKey
  | saveConnRecord
  | attachInvitation
  | metadataSet
  | sendKeylistUpdate
  | saveOobRecord
  deriving DecidableEq, Repr

/-- Whether the action persists a new `ConnRecord` or `OobRecord`. -/
def CreateAct.persists : CreateAct → Bool
  | CreateAct.saveConnRecord => true
  | CreateAct.saveOobRecord => true
  | _ => false

/-- Error outcomes of `create_invitation`, each an `OutOfBandManagerError`
except `noneDereference`, which is the `AttributeError` raised by calling
`conn_rec.metadata_set` while `conn_rec` is `None`. -/
inductive CreateErr
  | invalidInvitation
  | publicMultiUse
  | publicMetadata
  | attachmentsMultiUse
  | unknownAttachmentType (t : String)
  | publicInvitesDisabled
  | noPublicDid
  | noneDereference
  deriving DecidableEq, Repr

/-- The attachment types the resolution loop recognizes. -/
def knownAttachmentType (a : AttachmentRef) : Bool :=
  a.aType == "credential-offer" || a.aType == "present-proof"

/-- Embeds `OutOfBandManager.create_invitation`'s control flow over explicit
parameters, returning its outcome together with the trace of external
effects in source order: the fail-fast validations (no protocols and no
attachments; public+multi_use; public+metadata; attachments+multi_use), the
attachment-resolution loop (storage reads, failing on an unknown type), the
public branch (policy and public-DID checks, optional connection record),
and the pairwise branch (signing-key creation, optional connection record,
mediation metadata — where `conn_rec.metadata_set` is reached with
`conn_rec = None` whenever a mediation record applies but no handshake
protocol was requested — and the final `OobRecord` save). -/
def create_invitation (p : CreateParams) (env : CreateEnv) :
    Except CreateErr Unit × List CreateAct :=
  if p.hsProtos.isEmpty ∧ p.attachments.isEmpty then
    (Except.error CreateErr.invalidInvitation, [])
  else if p.publicInv ∧ p.multiUse then
    (Except.error CreateErr.publicMultiUse, [])
  else if p.publicInv ∧ p.metadata.isEmpty = false then
    (Except.error CreateErr.publicMetadata, [])
  else if p.attachments.isEmpty = false ∧ p.multiUse then
    (Except.error CreateErr.attachmentsMultiUse, [])
  else
    let lookups := (p.attachments.takeWhile knownAttachmentType).map
      (fun a => CreateAct.lookupAttachment a.aId)
    match p.attachments.find? (fun a => !(knownAttachmentType a)) with
    | some a => (Except.error (CreateErr.unknownAttachmentType a.aType), lookups)
    | none =>
        let hasHs := p.hsProtos.isEmpty = false
        if p.publicInv then
          if env.publicInvitesEnabled = false then
            (Except.error CreateErr.publicInvitesDisabled, lookups)
          else
            match env.publicDid with
            | none => (Except.error CreateErr.noPublicDid, lookups)
            | some _ =>
                let t1 := if p.multitenant then [CreateAct.addMultitenantKey] else []
                let t2 := if hasHs then
                    [CreateAct.saveConnRecord, CreateAct.attachInvitation]
                  else []
                (Except.ok (), lookups ++ t1 ++ t2 ++ [CreateAct.saveOobRecord])
        else
          let t1 := [CreateAct.createSigningKey]
          let t2 := if p.multitenant then [CreateAct.addMultitenantKey] else []
          let t3 := if hasHs then [CreateAct.saveConnRecord] else []
          let keylistUpdates := ¬(p.multitenant ∧ p.baseMediator)
          if p.mediationRecordFound then
            if hasHs then
              let t4 := [CreateAct.metadataSet] ++
                (if keylistUpdates then [CreateAct.sendKeylistUpdate] else [])
              let t5 := [CreateAct.attachInvitation] ++
                (p.metadata.map (fun _ => CreateAct.metadataSet))
              (Except.ok (),
               lookups ++ t1 ++ t2 ++ t3 ++ t4 ++ t5 ++ [CreateAct.saveOobRecord])
            else
              (Except.error CreateErr.noneDereference, lookups ++ t1 ++ t2 ++ t3)
          else
            let t5 := if hasHs then
                [CreateAct.attachInvitation] ++
                  (p.metadata.map (fun _ => CreateAct.metadataSet))
              else []
            (Except.ok (), lookups ++ t1 ++ t2 ++ t3 ++ t5 ++ [CreateAct.saveOobRecord])

/-! ### Concrete fixtures used by the closed witness theorems -/

def recA : OobRecord :=
  { oobId := 1, role := OobRole.receiver, state := OobState.initial,
    inviMsgId := 10, reuseMsgId := none, connectionId := some 3,
    ourRecipientKey := none }

def connA : ConnRecord := { connectionId := 3, ready := true }

/-- A reuse wait in which no response ever arrives: the record is still in
`await_response` at the post-subscription check and at the post-timeout
re-read. -/
def reuseTimeoutEnv : ReuseWaitEnv :=
  { checkState := OobState.awaitResponse, eventAccepted := none,
    timeoutState := OobState.awaitResponse }

/-- An invitee-side record as stored while a reuse message is in flight. -/
def recB : OobRecord :=
  { oobId := 2, role := OobRole.receiver, state := OobState.awaitResponse,
    inviMsgId := 10, reuseMsgId := some 42, connectionId := some 3,
    ourRecipientKey := none }

def storeB : List OobRecord := [recA, recB]

def invW : InvitationMessage :=
  { msgId := 10, handshakeProtocols := ["RFC23"], requestsAttach := [],
    services := [ServiceEntry.did "did:sov:abc"] }

def envW : ReceiveEnv :=
  { oobId := 1, existingConn := none, reuseMsgId := 42,
    reuseWait := reuseTimeoutEnv, delegatedConnId := 7, refetchReady := true,
    connWait := { storedConn := connA, eventConn := none }, freshKey := 99 }

def resW : ReceiveResult :=
  ((receive_invitation invW true envW).toOption).getD default

def c9params : CreateParams :=
  { publicInv := false, hsProtos := [], multiUse := false,
    attachments := [{ aType := "credential-offer", aId := 5 }],
    metadata := [], mediationRecordFound := true,
    multitenant := false, baseMediator := false }

def c9env : CreateEnv := { publicInvitesEnabled := false, publicDid := none }

/-- `l.all (fun a => !(a.persists))`: no action in the trace persists a
connection record or an oob record. -/
def noPersist (l : List CreateAct) : Bool := l.all (fun a => !(a.persists))

def isOkE (e : Except CreateErr Unit) : Bool :=
  match e with
  | Except.ok _ => true
  | Except.error _ => false

def env0 : CreateEnv := { publicInvitesEnabled := true, publicDid := some 1 }

def p1 : CreateParams :=
  { publicInv := false, hsProtos := [], multiUse := false, attachments := [],
    metadata := [], mediationRecordFound := false, multitenant := false,
    baseMediator := false }

def p2 : CreateParams :=
  { p1 with publicInv := true, multiUse := true, hsProtos := [HSProto.rfc23] }

def p3 : CreateParams :=
  { p1 with
    publicInv := true,
    hsProtos := [HSProto.rfc23],
    metadata := [("mkey", "mval")] }

def p4 : CreateParams :=
  { p1 with
    attachments := [{ aType := "credential-offer", aId := 5 }],
    multiUse := true }

def p5 : CreateParams :=
  { p1 with attachments := [{ aType := "bogus", aId := 1 }] }

/-! ### Helper lemmas -/

theorem wait_reuse_fields (t : Nat) (s : OobRecord) (e : ReuseWaitEnv) :
    (_wait_for_reuse_response t s e).1.reuseMsgId = s.reuseMsgId ∧
    (_wait_for_reuse_response t s e).1.inviMsgId = s.inviMsgId ∧
    (_wait_for_reuse_response t s e).1.connectionId = s.connectionId := by
  unfold _wait_for_reuse_response
  split
  · exact ⟨rfl, rfl, rfl⟩
  · split <;> exact ⟨rfl, rfl, rfl⟩

theorem wait_reuse_timeout_state (t : Nat) (s : OobRecord) (e : ReuseWaitEnv)
    (h1 : ¬(e.checkState = OobState.accepted ∨ e.checkState = OobState.notAccepted))
    (h2 : e.eventAccepted = none) :
    (_wait_for_reuse_response t s e).1.state = e.timeoutState := by
  unfold _wait_for_reuse_response
  rw [if_neg h1, h2]

theorem perform_handshake_ok (rec : OobRecord) (protos : List String) (cid : Nat)
    (r : OobRecord) (h : _perform_handshake rec protos cid = Except.ok r) :
    r.state = rec.state ∧ r.connectionId = some cid := by
  unfold _perform_handshake at h
  split at h
  · cases h
  · cases h
    exact ⟨rfl, rfl⟩

theorem handshakeStep_ok (inv : InvitationMessage) (env : ReceiveEnv)
    (rec : OobRecord) (connRec : Option ConnRecord) (st : OobRecord)
    (out : OobRecord × Option ConnRecord × OobRecord × List RcvOp)
    (h : handshakeStep inv env rec connRec st = Except.ok out) :
    out.1.state = rec.state ∧ (out.2.2.1 = st ∨ out.2.2.1.state = rec.state) := by
  unfold handshakeStep at h
  split at h
  · split at h
    · cases h
    · rename_i r hph
      cases h
      exact ⟨(perform_handshake_ok _ _ _ _ hph).1,
             Or.inr (perform_handshake_ok _ _ _ _ hph).1⟩
  · cases h
    exact ⟨rfl, Or.inl rfl⟩

theorem receiveAfterReuse_ok (inv : InvitationMessage) (env : ReceiveEnv)
    (rec : OobRecord) (connRec : Option ConnRecord) (st : OobRecord)
    (nf : List Notification) (tr : List RcvOp) (res : ReceiveResult)
    (h : receiveAfterReuse inv env rec connRec st nf tr = Except.ok res) :
    res.early = false ∧ res.record.state = OobState.done ∧
    res.notifications = nf ∧
    (res.stored = st ∨ res.stored.state = rec.state) := by
  unfold receiveAfterReuse at h
  rcases hh : handshakeStep inv env rec connRec st with e | out
  · rw [hh] at h; cases h
  · rw [hh] at h
    obtain ⟨h1, h2⟩ := handshakeStep_ok inv env rec connRec st out hh
    obtain ⟨rec1, connRec1, stored1, t1⟩ := out
    simp only at h h1 h2
    split at h
    · cases h
      exact ⟨rfl, rfl, rfl, h2⟩
    · split at h
      · cases h
      · by_cases hc : connRec1.isNone
        · simp only [if_pos hc] at h
          cases h
          refine ⟨rfl, rfl, rfl, Or.inr ?_⟩
          exact h1
        · simp only [if_neg hc] at h
          cases h
          exact ⟨rfl, rfl, rfl, h2⟩

/-! ### Claim theorems -/

/-- C5: In both Event Waiter helpers the subscription step comes before the
read of the record's current state; if the awaited predicate (terminal reuse
state, resp. connection readiness) already holds at that read, the stored
record is returned immediately with no await step; on timeout the
reuse-response wait returns the record's current persisted value as-is (no
error, no forced state); the default timeouts are 15 and 7, and the
reuse-initiate path invokes the reuse wait with the default 15. -/
theorem claim_c5_event_waiter :
    (∀ t stored env, ((_wait_for_reuse_response t stored env).2).take 2 =
        [WaitOp.subscribe, WaitOp.readRecord]) ∧
    (∀ t env, ((_wait_for_conn_rec_active t env).2).take 2 =
        [WaitOp.subscribe, WaitOp.readRecord]) ∧
    (∀ t stored env,
        (env.checkState = OobState.accepted ∨ env.checkState = OobState.notAccepted) →
        _wait_for_reuse_response t stored env =
          ({ stored with state := env.checkState },
           [WaitOp.subscribe, WaitOp.readRecord])) ∧
    (∀ t env, env.storedConn.ready = true →
        _wait_for_conn_rec_active t env =
          (some env.storedConn, [WaitOp.subscribe, WaitOp.readRecord])) ∧
    (∀ t stored env,
        ¬(env.checkState = OobState.accepted ∨ env.checkState = OobState.notAccepted) →
        env.eventAccepted = none →
        _wait_for_reuse_response t stored env =
          ({ stored with state := env.timeoutState },
           [WaitOp.subscribe, WaitOp.readRecord, WaitOp.awaitEvent t,
            WaitOp.rereadRecord])) ∧
    reuseResponseTimeoutDefault = 15 ∧ connRecActiveTimeoutDefault = 7 ∧
    (∀ rec conn rmid env,
        ¬(env.checkState = OobState.accepted ∨ env.checkState = OobState.notAccepted) →
        WaitOp.awaitEvent 15 ∈ (_handle_hanshake_reuse rec conn rmid env).ops) := by
  refine ⟨?_, ?_, ?_, ?_, ?_, rfl, rfl, ?_⟩
  · intro t stored env
    unfold _wait_for_reuse_response
    split
    · rfl
    · split <;> rfl
  · intro t env
    unfold _wait_for_conn_rec_active
    split
    · rfl
    · split <;> rfl
  · intro t stored env h
    unfold _wait_for_reuse_response
    rw [if_pos h]
  · intro t env h
    unfold _wait_for_conn_rec_active
    rw [if_pos h]
  · intro t stored env h1 h2
    unfold _wait_for_reuse_response
    rw [if_neg h1, h2]
  · intro rec conn rmid env h
    unfold _handle_hanshake_reuse
    have hops : (_wait_for_reuse_response reuseResponseTimeoutDefault
        (_create_handshake_reuse_message rec rmid) env).2.take 2 =
        [WaitOp.subscribe, WaitOp.readRecord] := by
      unfold _wait_for_reuse_response
      split
      · rfl
      · split <;> rfl
    have hmem : WaitOp.awaitEvent 15 ∈ (_wait_for_reuse_response
        reuseResponseTimeoutDefault (_create_handshake_reuse_message rec rmid) env).2 := by
      unfold _wait_for_reuse_response
      rw [if_neg h]
      cases henv : env.eventAccepted <;> simp [reuseResponseTimeoutDefault]
    dsimp only
    split <;> exact hmem

/-- C5 witness: the event-waiter properties instantiated at concrete inputs. -/
theorem claim_c5_event_waiter_witness :
    ((_wait_for_reuse_response 15 recA reuseTimeoutEnv).2.take 2 =
      [WaitOp.subscribe, WaitOp.readRecord]) ∧
    ((_wait_for_conn_rec_active 7 { storedConn := connA, eventConn := none }).2.take 2 =
      [WaitOp.subscribe, WaitOp.readRecord]) ∧
    (_wait_for_reuse_response 15 recA
        { checkState := OobState.notAccepted, eventAccepted := none,
          timeoutState := OobState.notAccepted } =
      ({ recA with state := OobState.notAccepted },
       [WaitOp.subscribe, WaitOp.readRecord])) ∧
    (_wait_for_conn_rec_active 7 { storedConn := connA, eventConn := none } =
      (some connA, [WaitOp.subscribe, WaitOp.readRecord])) ∧
    (_wait_for_reuse_response 15 recA reuseTimeoutEnv =
      ({ recA with state := OobState.awaitResponse },
       [WaitOp.subscribe, WaitOp.readRecord, WaitOp.awaitEvent 15,
        WaitOp.rereadRecord])) ∧
    (WaitOp.awaitEvent 15 ∈ (_handle_hanshake_reuse recA connA 42 reuseTimeoutEnv).ops) :=
  ⟨claim_c5_event_waiter.1 15 recA reuseTimeoutEnv,
   claim_c5_event_waiter.2.1 7 { storedConn := connA, eventConn := none },
   claim_c5_event_waiter.2.2.1 15 recA
     { checkState := OobState.notAccepted, eventAccepted := none,
       timeoutState := OobState.notAccepted } (by decide),
   claim_c5_event_waiter.2.2.2.1 7 { storedConn := connA, eventConn := none } (by decide),
   claim_c5_event_waiter.2.2.2.2.1 15 recA reuseTimeoutEnv (by decide) (by decide),
   claim_c5_event_waiter.2.2.2.2.2.2.2 recA connA 42 reuseTimeoutEnv (by decide)⟩

/-- C1: On every reuse-initiate run whose wait ends with the record not in
`reuse_accepted` (problem-report processed, or timeout with the record still
in `await_response`), the record's `connection_id` is cleared and exactly
one rejection notification is emitted, carrying the reuse-thread correlation
id, the candidate connection's id and the human-readable comment; when the
run ended accepted no rejection notification is emitted; and a timeout does
not itself force `reuse_not_accepted` — the resulting state is whatever the
stored record last had. -/
theorem claim_c1_reuse_rejection (rec : OobRecord) (conn : ConnRecord)
    (rmid : Nat) (env : ReuseWaitEnv) :
    ((_handle_hanshake_reuse rec conn rmid env).record.state ≠ OobState.accepted →
      (_handle_hanshake_reuse rec conn rmid env).record.connectionId = none ∧
      (_handle_hanshake_reuse rec conn rmid env).notifications.length = 1 ∧
      ((_handle_hanshake_reuse rec conn rmid env).notifications.headD
          dummyNotification).topic = REUSE_ACCEPTED_WEBHOOK_TOPIC ∧
      ((_handle_hanshake_reuse rec conn rmid env).notifications.headD
          dummyNotification).threadId = some rmid ∧
      ((_handle_hanshake_reuse rec conn rmid env).notifications.headD
          dummyNotification).connectionId = some conn.connectionId ∧
      ((_handle_hanshake_reuse rec conn rmid env).notifications.headD
          dummyNotification).stateTag = some "rejected" ∧
      ((_handle_hanshake_reuse rec conn rmid env).notifications.headD
          dummyNotification).comment = CommentVal.pair
        ("No HandshakeReuseAccept message received, connection " ++
          Nat.repr conn.connectionId ++ " ")
        ("and invitation " ++ Nat.repr rec.inviMsgId)) ∧
    ((_handle_hanshake_reuse rec conn rmid env).record.state = OobState.accepted →
      (_handle_hanshake_reuse rec conn rmid env).notifications = []) ∧
    (¬(env.checkState = OobState.accepted ∨ env.checkState = OobState.notAccepted) →
      env.eventAccepted = none →
      (_handle_hanshake_reuse rec conn rmid env).record.state = env.timeoutState) := by
  have hfld := wait_reuse_fields reuseResponseTimeoutDefault
    (_create_handshake_reuse_message rec rmid) env
  have hts := wait_reuse_timeout_state reuseResponseTimeoutDefault
    (_create_handshake_reuse_message rec rmid) env
  unfold _handle_hanshake_reuse
  dsimp only
  split
  · rename_i hacc
    refine ⟨fun h => absurd hacc h, fun _ => rfl, fun h1 h2 => hts h1 h2⟩
  · rename_i hacc
    refine ⟨fun _ => ?_, fun h => ?_, fun h1 h2 => hts h1 h2⟩
    · refine ⟨rfl, rfl, rfl, ?_, rfl, rfl, ?_⟩
      · simpa [rejectionNotification, _create_handshake_reuse_message] using hfld.1
      · simp only [List.headD, rejectionNotification]
        rw [show (_wait_for_reuse_response reuseResponseTimeoutDefault
            (_create_handshake_reuse_message rec rmid) env).1.inviMsgId =
            rec.inviMsgId from hfld.2.1]
    · exact absurd h hacc

/-- C1 witness: a concrete timed-out reuse-initiate run. -/
theorem claim_c1_reuse_rejection_witness :
    (_handle_hanshake_reuse recA connA 42 reuseTimeoutEnv).record.state ≠
      OobState.accepted ∧
    (¬(reuseTimeoutEnv.checkState = OobState.accepted ∨
        reuseTimeoutEnv.checkState = OobState.notAccepted) ∧
      reuseTimeoutEnv.eventAccepted = none) ∧
    (_handle_hanshake_reuse recA connA 42 reuseTimeoutEnv).record.connectionId = none ∧
    (_handle_hanshake_reuse recA connA 42 reuseTimeoutEnv).notifications.length = 1 ∧
    (_handle_hanshake_reuse recA connA 42 reuseTimeoutEnv).record.state =
      reuseTimeoutEnv.timeoutState :=
  ⟨by decide, ⟨by decide, by decide⟩,
   ((claim_c1_reuse_rejection recA connA 42 reuseTimeoutEnv).1 (by decide)).1,
   ((claim_c1_reuse_rejection recA connA 42 reuseTimeoutEnv).1 (by decide)).2.1,
   (claim_c1_reuse_rejection recA connA 42 reuseTimeoutEnv).2.2 (by decide) (by decide)⟩

/-- C4: The `_perform_handshake` loop selects the first protocol in
(deduplicated) invitation order that resolves to a supported protocol —
characterized by: the selection over the parsed list is the head of the
list after dropping its unsupported prefix; in particular an invitation
listing `[RFC160, RFC23]` (also in qualified form) selects RFC160 against
the supported set `{RFC23, RFC160}`; and when no listed protocol is
supported, the call fails with the error naming the attempted protocol
set. -/
theorem claim_c4_protocol_selection :
    (∀ l : List (Option HSProto),
        firstSome l = (l.dropWhile Option.isNone).headD none) ∧
    selectHandshakeProtocol ["RFC160", "RFC23"] = some HSProto.rfc160 ∧
    selectHandshakeProtocol
        ["https://didcomm.org/connections/1.0",
         "https://didcomm.org/didexchange/1.0"] = some HSProto.rfc160 ∧
    (∀ (rec : OobRecord) (protos : List String) (cid : Nat),
        selectHandshakeProtocol protos = none →
        _perform_handshake rec protos cid =
          Except.error (ReceiveErr.handshakeFailed (parsedProtos protos))) := by
  refine ⟨?_, by decide, by decide, ?_⟩
  · intro l
    induction l with
    | nil => rfl
    | cons x xs ih =>
        cases x with
        | none => simpa [firstSome, List.dropWhile] using ih
        | some p => simp [firstSome, List.dropWhile]
  · intro rec protos cid h
    unfold _perform_handshake
    rw [h]

/-- C4 witness: the selection characterization and the failure case at
concrete inputs. -/
theorem claim_c4_protocol_selection_witness :
    (firstSome [none, some HSProto.rfc23] =
      (([none, some HSProto.rfc23] : List (Option HSProto)).dropWhile
        Option.isNone).headD none) ∧
    selectHandshakeProtocol ["bogus/1.0"] = none ∧
    _perform_handshake recA ["bogus/1.0"] 3 =
      Except.error (ReceiveErr.handshakeFailed (parsedProtos ["bogus/1.0"])) :=
  ⟨claim_c4_protocol_selection.1 [none, some HSProto.rfc23], by decide,
   claim_c4_protocol_selection.2.2.2 recA ["bogus/1.0"] 3 (by decide)⟩

theorem handle_reuse_not_done (rec : OobRecord) (conn : ConnRecord) (rmid : Nat)
    (env : ReuseWaitEnv) (hts : env.timeoutState ≠ OobState.done) :
    (_handle_hanshake_reuse rec conn rmid env).record.state ≠ OobState.done ∧
    (_handle_hanshake_reuse rec conn rmid env).stored.state ≠ OobState.done := by
  obtain ⟨cs, ea, ts⟩ := env
  simp only [_handle_hanshake_reuse, _wait_for_reuse_response,
    _create_handshake_reuse_message] at hts ⊢
  rcases ea with _ | b
  · cases cs <;> simp_all <;> split <;> simp_all
  · cases b <;> cases cs <;> simp_all

theorem reuseStep_c3 (inv : InvitationMessage) (env : ReceiveEnv)
    (rec0 : OobRecord) (conn : ConnRecord) (res : ReceiveResult)
    (h : reuseStep inv env rec0 conn = Except.ok res) :
    (res.early = true ↔ res.record.state = OobState.accepted) ∧
    (res.early = true → res.trace = [RcvOp.saveOob, RcvOp.sendReuse,
        RcvOp.awaitReuse reuseResponseTimeoutDefault]) ∧
    (res.early = false → res.record.state = OobState.done) := by
  unfold reuseStep at h
  dsimp only at h
  split at h
  · rename_i hacc
    cases h
    exact ⟨⟨fun _ => hacc, fun _ => rfl⟩, fun _ => rfl, fun hf => absurd hf (by simp)⟩
  · rename_i hacc
    obtain ⟨he, hd, hn, hs⟩ := receiveAfterReuse_ok _ _ _ _ _ _ _ _ h
    exact ⟨by rw [he, hd]; simp, fun ht => absurd (he.symm.trans ht) (by decide),
           fun _ => hd⟩

theorem reuseStep_stored (inv : InvitationMessage) (env : ReceiveEnv)
    (rec0 : OobRecord) (conn : ConnRecord) (res : ReceiveResult)
    (hts : env.reuseWait.timeoutState ≠ OobState.done)
    (h : reuseStep inv env rec0 conn = Except.ok res) :
    res.stored.state ≠ OobState.done := by
  have hnd := handle_reuse_not_done rec0 conn env.reuseMsgId env.reuseWait hts
  unfold reuseStep at h
  dsimp only at h
  split at h
  · cases h
    exact hnd.2
  · obtain ⟨he, hd, hn, hs⟩ := receiveAfterReuse_ok _ _ _ _ _ _ _ _ h
    rcases hs with hs | hs
    · rw [hs]; exact hnd.2
    · rw [hs]; exact hnd.1

/-- C3: Every successfully completing `receive_invitation` run returns early
exactly when its record is in `reuse_accepted` (which happens only on the
reuse path: the early run's trace is just save / send-reuse / await-reuse,
with no handshake, connection wait, key creation or attachment dispatch);
every other completing run returns the record with state `done`. -/
theorem claim_c3_early_return (inv : InvitationMessage) (useEx : Bool)
    (env : ReceiveEnv) (res : ReceiveResult)
    (h : receive_invitation inv useEx env = Except.ok res) :
    (res.early = true ↔ res.record.state = OobState.accepted) ∧
    (res.early = true →
      RcvOp.sendReuse ∈ res.trace ∧ RcvOp.performHs ∉ res.trace ∧
      RcvOp.dispatchAttach ∉ res.trace ∧ RcvOp.createKey ∉ res.trace ∧
      (∀ t, RcvOp.awaitConnActive t ∉ res.trace)) ∧
    (res.early = false → res.record.state = OobState.done) := by
  unfold receive_invitation at h
  split at h
  · cases h
  split at h
  · cases h
  dsimp only at h
  split at h
  · split at h
    · obtain ⟨hi, htr, hdone⟩ := reuseStep_c3 _ _ _ _ _ h
      refine ⟨hi, fun ht => ?_, hdone⟩
      rw [htr ht]
      refine ⟨by decide, by decide, by decide, by decide, fun t => ?_⟩
      simp [reuseResponseTimeoutDefault]
    · obtain ⟨he, hd, hn, hs⟩ := receiveAfterReuse_ok _ _ _ _ _ _ _ _ h
      exact ⟨by rw [he, hd]; simp, fun ht => absurd (he.symm.trans ht) (by decide),
             fun _ => hd⟩
  · obtain ⟨he, hd, hn, hs⟩ := receiveAfterReuse_ok _ _ _ _ _ _ _ _ h
    exact ⟨by rw [he, hd]; simp, fun ht => absurd (he.symm.trans ht) (by decide),
           fun _ => hd⟩

/-- C3 witness: a concrete completing run (handshake, no reuse, no
attachments). -/
theorem claim_c3_early_return_witness :
    receive_invitation invW true envW = Except.ok resW ∧
    ((resW.early = true ↔ resW.record.state = OobState.accepted) ∧
     (resW.early = true →
       RcvOp.sendReuse ∈ resW.trace ∧ RcvOp.performHs ∉ resW.trace ∧
       RcvOp.dispatchAttach ∉ resW.trace ∧ RcvOp.createKey ∉ resW.trace ∧
       (∀ t, RcvOp.awaitConnActive t ∉ resW.trace)) ∧
     (resW.early = false → resW.record.state = OobState.done)) :=
  ⟨rfl, claim_c3_early_return invW true envW resW rfl⟩

/-- C10: In every completing non-early `receive_invitation` run the `done`
state exists only on the returned in-memory record: the record as last
persisted is not in state `done` (the hypothesis on the wait environment
says the concurrently stored state read back after a reuse timeout is not
`done`, which holds since no code path persists `done`). -/
theorem claim_c10_done_not_persisted (inv : InvitationMessage) (useEx : Bool)
    (env : ReceiveEnv) (res : ReceiveResult)
    (h1 : env.reuseWait.timeoutState ≠ OobState.done)
    (h2 : receive_invitation inv useEx env = Except.ok res)
    (h3 : res.early = false) :
    res.record.state = OobState.done ∧ res.stored.state ≠ OobState.done := by
  unfold receive_invitation at h2
  split at h2
  · cases h2
  split at h2
  · cases h2
  dsimp only at h2
  split at h2
  · split at h2
    · obtain ⟨hi, htr, hdone⟩ := reuseStep_c3 _ _ _ _ _ h2
      exact ⟨hdone h3, reuseStep_stored _ _ _ _ _ h1 h2⟩
    · obtain ⟨he, hd, hn, hs⟩ := receiveAfterReuse_ok _ _ _ _ _ _ _ _ h2
      refine ⟨hd, ?_⟩
      rcases hs with hs | hs
      · rw [hs]; simp
      · rw [hs]; simp
  · obtain ⟨he, hd, hn, hs⟩ := receiveAfterReuse_ok _ _ _ _ _ _ _ _ h2
    refine ⟨hd, ?_⟩
    rcases hs with hs | hs
    · rw [hs]; simp
    · rw [hs]; simp

/-- C10 witness: the concrete run of the C3 witness, whose returned record is
`done` while the last-persisted record is in state `initial`. -/
theorem claim_c10_done_not_persisted_witness :
    envW.reuseWait.timeoutState ≠ OobState.done ∧
    receive_invitation invW true envW = Except.ok resW ∧
    resW.early = false ∧
    (resW.record.state = OobState.done ∧ resW.stored.state ≠ OobState.done) :=
  ⟨by decide, rfl, by decide,
   claim_c10_done_not_persisted invW true envW resW (by decide) rfl (by decide)⟩

theorem noPersist_lookups (l : List AttachmentRef) :
    noPersist (l.map (fun a => CreateAct.lookupAttachment a.aId)) = true := by
  induction l with
  | nil => rfl
  | cons a t ih => simp [noPersist, CreateAct.persists]

/-- C6: `create_invitation` validation is fail-fast: an empty
handshake-protocol list with an empty attachment list, public+multi_use,
public+metadata, attachments+multi_use, and an unknown attachment type each
make the call fail, with no `ConnRecord` or `OobRecord` persisted by the
run. -/
theorem claim_c6_fail_fast (p : CreateParams) (env : CreateEnv) :
    ((p.hsProtos.isEmpty ∧ p.attachments.isEmpty) →
      isOkE (create_invitation p env).1 = false ∧
      noPersist (create_invitation p env).2 = true) ∧
    ((p.publicInv ∧ p.multiUse) →
      isOkE (create_invitation p env).1 = false ∧
      noPersist (create_invitation p env).2 = true) ∧
    ((p.publicInv ∧ p.metadata.isEmpty = false) →
      isOkE (create_invitation p env).1 = false ∧
      noPersist (create_invitation p env).2 = true) ∧
    ((p.attachments.isEmpty = false ∧ p.multiUse) →
      isOkE (create_invitation p env).1 = false ∧
      noPersist (create_invitation p env).2 = true) ∧
    ((p.attachments.find? (fun a => !(knownAttachmentType a))).isSome = true →
      isOkE (create_invitation p env).1 = false ∧
      noPersist (create_invitation p env).2 = true) := by
  by_cases h1 : p.hsProtos.isEmpty ∧ p.attachments.isEmpty
  · have hres : create_invitation p env =
        (Except.error CreateErr.invalidInvitation, []) := by
      unfold create_invitation
      rw [if_pos h1]
    have hc : isOkE (create_invitation p env).1 = false ∧
        noPersist (create_invitation p env).2 = true := by
      rw [hres]; exact ⟨rfl, rfl⟩
    exact ⟨fun _ => hc, fun _ => hc, fun _ => hc, fun _ => hc, fun _ => hc⟩
  · by_cases h2 : p.publicInv ∧ p.multiUse
    · have hres : create_invitation p env =
          (Except.error CreateErr.publicMultiUse, []) := by
        unfold create_invitation
        rw [if_neg h1, if_pos h2]
      have hc : isOkE (create_invitation p env).1 = false ∧
          noPersist (create_invitation p env).2 = true := by
        rw [hres]; exact ⟨rfl, rfl⟩
      exact ⟨fun _ => hc, fun _ => hc, fun _ => hc, fun _ => hc, fun _ => hc⟩
    · by_cases h3 : p.publicInv ∧ p.metadata.isEmpty = false
      · have hres : create_invitation p env =
            (Except.error CreateErr.publicMetadata, []) := by
          unfold create_invitation
          rw [if_neg h1, if_neg h2, if_pos h3]
        have hc : isOkE (create_invitation p env).1 = false ∧
            noPersist (create_invitation p env).2 = true := by
          rw [hres]; exact ⟨rfl, rfl⟩
        exact ⟨fun _ => hc, fun _ => hc, fun _ => hc, fun _ => hc, fun _ => hc⟩
      · by_cases h4 : p.attachments.isEmpty = false ∧ p.multiUse
        · have hres : create_invitation p env =
              (Except.error CreateErr.attachmentsMultiUse, []) := by
            unfold create_invitation
            rw [if_neg h1, if_neg h2, if_neg h3, if_pos h4]
          have hc : isOkE (create_invitation p env).1 = false ∧
              noPersist (create_invitation p env).2 = true := by
            rw [hres]; exact ⟨rfl, rfl⟩
          exact ⟨fun _ => hc, fun _ => hc, fun _ => hc, fun _ => hc, fun _ => hc⟩
        · rcases hfind : p.attachments.find? (fun a => !(knownAttachmentType a))
            with _ | a
          · exact ⟨fun hc => absurd hc h1, fun hc => absurd hc h2,
                   fun hc => absurd hc h3, fun hc => absurd hc h4,
                   fun hc => by simp [hfind] at hc⟩
          · have hres : create_invitation p env =
                (Except.error (CreateErr.unknownAttachmentType a.aType),
                 (p.attachments.takeWhile knownAttachmentType).map
                   (fun x => CreateAct.lookupAttachment x.aId)) := by
              unfold create_invitation
              rw [if_neg h1, if_neg h2, if_neg h3, if_neg h4, hfind]
            have hc : isOkE (create_invitation p env).1 = false ∧
                noPersist (create_invitation p env).2 = true := by
              rw [hres]
              exact ⟨rfl, noPersist_lookups _⟩
            exact ⟨fun _ => hc, fun _ => hc, fun _ => hc, fun _ => hc, fun _ => hc⟩

/-- C6 witness: the five validation failures at concrete inputs. -/
theorem claim_c6_fail_fast_witness :
    (p1.hsProtos.isEmpty ∧ p1.attachments.isEmpty) ∧
    (isOkE (create_invitation p1 env0).1 = false ∧
      noPersist (create_invitation p1 env0).2 = true) ∧
    (p2.publicInv ∧ p2.multiUse) ∧
    (isOkE (create_invitation p2 env0).1 = false ∧
      noPersist (create_invitation p2 env0).2 = true) ∧
    (p3.publicInv ∧ p3.metadata.isEmpty = false) ∧
    (isOkE (create_invitation p3 env0).1 = false ∧
      noPersist (create_invitation p3 env0).2 = true) ∧
    (p4.attachments.isEmpty = false ∧ p4.multiUse) ∧
    (isOkE (create_invitation p4 env0).1 = false ∧
      noPersist (create_invitation p4 env0).2 = true) ∧
    ((p5.attachments.find? (fun a => !(knownAttachmentType a))).isSome = true) ∧
    (isOkE (create_invitation p5 env0).1 = false ∧
      noPersist (create_invitation p5 env0).2 = true) :=
  ⟨by decide, (claim_c6_fail_fast p1 env0).1 (by decide),
   by decide, (claim_c6_fail_fast p2 env0).2.1 (by decide),
   by decide, (claim_c6_fail_fast p3 env0).2.2.1 (by decide),
   by decide, (claim_c6_fail_fast p4 env0).2.2.2.1 (by decide),
   by decide, (claim_c6_fail_fast p5 env0).2.2.2.2 (by decide)⟩

theorem find_save (store : List OobRecord) (i r : Nat) (rec rec' : OobRecord)
    (hf : retrieveByCorrelation store i r = some rec)
    (hid : rec'.oobId = rec.oobId)
    (hp : (rec'.inviMsgId == i && rec'.reuseMsgId == some r) = true) :
    retrieveByCorrelation (saveRecord store rec') i r = some rec' := by
  induction store with
  | nil => simp [retrieveByCorrelation] at hf
  | cons a rest ih =>
    unfold retrieveByCorrelation at hf
    unfold retrieveByCorrelation saveRecord
    rw [List.find?_cons] at hf
    rw [List.map_cons]
    by_cases ha : (a.inviMsgId == i && a.reuseMsgId == some r) = true
    · simp only [ha, Option.some.injEq] at hf
      subst hf
      have hb : (a.oobId == rec'.oobId) = true := by simp [hid]
      rw [if_pos hb, List.find?_cons]
      simp [hp]
    · have ha2 : (a.inviMsgId == i && a.reuseMsgId == some r) = false := by
        simpa using ha
      simp only [ha2] at hf
      by_cases hb : (a.oobId == rec'.oobId) = true
      · rw [if_pos hb, List.find?_cons]
        simp [hp]
      · rw [if_neg hb, List.find?_cons]
        simp only [ha2]
        exact ih hf

/-- C8: Delivering a `HandshakeReuseAccept` for a record the correlation
lookup finds — in particular a second delivery for a record already in
`reuse_accepted`, since the handler's tag filter has no state restriction
and never clears `reuse_msg_id` — succeeds again without error, leaves the
stored record in `reuse_accepted`, and leaves its `connection_id` exactly as
it was (the handler never touches it). -/
theorem claim_c8_reuse_accept_idempotent (store : List OobRecord) (i r : Nat)
    (conn : ConnRecord) (rec : OobRecord)
    (hf : retrieveByCorrelation store i r = some rec) :
    (receive_reuse_accepted_message store i r conn).1 = Except.ok () ∧
    (receive_reuse_accepted_message
        (receive_reuse_accepted_message store i r conn).2.1 i r conn).1 =
      Except.ok () ∧
    retrieveByCorrelation
        (receive_reuse_accepted_message
          (receive_reuse_accepted_message store i r conn).2.1 i r conn).2.1 i r =
      some { rec with state := OobState.accepted } ∧
    ({ rec with state := OobState.accepted } : OobRecord).connectionId =
      rec.connectionId := by
  have hf2 : List.find? (fun q => q.inviMsgId == i && q.reuseMsgId == some r)
      store = some rec := hf
  have hp0 := List.find?_some hf2
  have hp : (rec.inviMsgId == i && rec.reuseMsgId == some r) = true := hp0
  have hp1 : (({ rec with state := OobState.accepted } : OobRecord).inviMsgId == i &&
      ({ rec with state := OobState.accepted } : OobRecord).reuseMsgId == some r) = true := hp
  have h2 := find_save store i r rec { rec with state := OobState.accepted } hf rfl hp1
  have hrun1 : receive_reuse_accepted_message store i r conn =
      (Except.ok (), saveRecord store { rec with state := OobState.accepted },
       [acceptNotification r conn.connectionId i]) := by
    unfold receive_reuse_accepted_message
    rw [hf]
  have h3 := find_save (saveRecord store { rec with state := OobState.accepted }) i r
    { rec with state := OobState.accepted } { rec with state := OobState.accepted }
    h2 rfl hp1
  have hrun2 : receive_reuse_accepted_message
      (saveRecord store { rec with state := OobState.accepted }) i r conn =
      (Except.ok (),
       saveRecord (saveRecord store { rec with state := OobState.accepted })
         { rec with state := OobState.accepted },
       [acceptNotification r conn.connectionId i]) := by
    unfold receive_reuse_accepted_message
    rw [h2]
  rw [hrun1]
  refine ⟨rfl, ?_, ?_, rfl⟩
  · rw [hrun2]
  · rw [hrun2]
    exact h3

/-- C8 witness: a concrete store holding the invitee's in-flight record. -/
theorem claim_c8_reuse_accept_idempotent_witness :
    retrieveByCorrelation storeB 10 42 = some recB ∧
    ((receive_reuse_accepted_message storeB 10 42 connA).1 = Except.ok () ∧
     (receive_reuse_accepted_message
         (receive_reuse_accepted_message storeB 10 42 connA).2.1 10 42 connA).1 =
       Except.ok () ∧
     retrieveByCorrelation
         (receive_reuse_accepted_message
           (receive_reuse_accepted_message storeB 10 42 connA).2.1 10 42 connA).2.1
         10 42 =
       some { recB with state := OobState.accepted } ∧
     ({ recB with state := OobState.accepted } : OobRecord).connectionId =
       recB.connectionId) :=
  ⟨by decide, claim_c8_reuse_accept_idempotent storeB 10 42 connA recB (by decide)⟩

/-- C2 (code bug evaluated): an inbound `HandshakeReuse` whose invitation id
matches no stored record in state `await_response` makes
`receive_reuse_message` fail with the raw `StorageNotFoundError` escaping
the handler unwrapped — there is no try/except in its body — contradicting
both the claim and the handler's own docstring, which promises an
`OutOfBandManagerError`; no notification is emitted either. -/
theorem claim_c2_unwrapped_error :
    receive_reuse_message 10 42 connA { oobFound := none } =
      (Except.error ManagerErr.storageNotFound, []) ∧
    ManagerErr.isWrapped ManagerErr.storageNotFound = false := by
  exact ⟨rfl, rfl⟩

/-- C7 (code bug evaluated): on the reuse-initiate rejection path the single
notification's `comment` is not a string (the source's trailing commas make
it a 2-tuple of strings); the inviter-side acceptance notification carries
no outcome/state tag at all; and when the inviter-side handler fails, no
notification is emitted — all three contradicting the claim that every such
notification carries a string comment and an outcome tag regardless of
success or failure. -/
theorem claim_c7_notification_shape :
    (_handle_hanshake_reuse recA connA 42 reuseTimeoutEnv).notifications.length = 1 ∧
    CommentVal.isString
      ((_handle_hanshake_reuse recA connA 42 reuseTimeoutEnv).notifications.headD
        dummyNotification).comment = false ∧
    ((receive_reuse_message 10 42 connA { oobFound := some recB }).2.headD
        dummyNotification).stateTag = none ∧
    (receive_reuse_message 10 42 connA { oobFound := none }).2 = [] := by
  refine ⟨by decide, by decide, rfl, rfl⟩

/-- C9: With `public = False`, no handshake protocols, a non-empty (valid)
attachment list and an applicable mediation record, `create_invitation`
reaches `conn_rec.metadata_set` with `conn_rec = None` and crashes with the
`None`-dereference, after the signing key has already been created, instead
of completing the pure-attachment invitation. -/
theorem claim_c9_none_dereference :
    create_invitation c9params c9env =
      (Except.error CreateErr.noneDereference,
       [CreateAct.lookupAttachment 5, CreateAct.createSigningKey]) ∧
    CreateAct.createSigningKey ∈ (create_invitation c9params c9env).2 ∧
    c9params.publicInv = false ∧ c9params.hsProtos = [] ∧
    c9params.attachments ≠ [] ∧ c9params.mediationRecordFound = true := by
  refine ⟨rfl, by decide, rfl, rfl, by decide, rfl⟩
